import Mathlib

/-!
Verification of `emotional_prosody_transfer.py`.

The script loads two speech recordings, extracts WORLD vocoder parameters
from each, recombines the pitch contour of the emotional recording with the
spectral envelope and aperiodicity of the neutral one, resynthesizes a
waveform, and plots the pitch contours.

The embedding below models:
  * pitch contours as `List ℚ` (one value per analysis frame),
  * spectral envelopes and aperiodicity matrices as `List (List ℚ)`
    (one row per frame),
  * the external libraries (librosa, pyworld, soundfile, matplotlib) as an
    abstract environment of functions, since their internals are out of
    scope; their documented contracts appear as explicit hypotheses,
  * the orchestrator `main` as a function producing a trace of the external
    calls it performs together with an `Except` result, mirroring Python
    exception propagation.
-/

/-- Model of one-dimensional `numpy.resize(a, n)`, per the NumPy
documentation: the result has length `n` and is filled with repeated copies
of `a`, read cyclically (hence truncation when `n < a.length`); when `a` is
empty the result is filled with zeros. -/
def np_resize (a : List ℚ) (n : Nat) : List ℚ :=
  if a.length = 0 then List.replicate n 0
  else (List.range n).map (fun i => a.getD (i % a.length) 0)

/-- `transfer_prosody(f0_source, sp_target, ap_target)` from the source:
reads the target frame count from `sp_target.shape[0]`, resizes the source
pitch contour to that many frames with `np.resize`, and returns it together
with the untouched target envelope and aperiodicity. -/
def transfer_prosody (f0_source : List ℚ) (sp_target ap_target : List (List ℚ)) :
    List ℚ × List (List ℚ) × List (List ℚ) :=
  let num_frames_target := sp_target.length
  let f0_aligned := np_resize f0_source num_frames_target
  (f0_aligned, sp_target, ap_target)

theorem np_resize_length (a : List ℚ) (n : Nat) : (np_resize a n).length = n := by
  unfold np_resize
  by_cases h : a.length = 0 <;> simp [h]

theorem np_resize_getD (a : List ℚ) (n i : Nat) (ha : 0 < a.length) (hi : i < n) :
    (np_resize a n).getD i 0 = a.getD (i % a.length) 0 := by
  unfold np_resize
  rw [if_neg (Nat.pos_iff_ne_zero.mp ha)]
  have hlen : i < ((List.range n).map (fun i => a.getD (i % a.length) 0)).length := by
    simpa using hi
  rw [List.getD_eq_getElem?_getD, List.getElem?_eq_getElem hlen]
  simp

theorem map_getD_range (a : List ℚ) :
    (List.range a.length).map (fun i => a.getD i 0) = a := by
  apply List.ext_getElem
  · simp
  · intro i h1 h2
    simp [List.getElem?_eq_getElem h2]

theorem np_resize_mul (a : List ℚ) (ha : 0 < a.length) :
    ∀ k : Nat, np_resize a (k * a.length) = (List.replicate k a).flatten := by
  have hne : ¬ a.length = 0 := Nat.pos_iff_ne_zero.mp ha
  intro k
  induction k with
  | zero => simp [np_resize, hne]
  | succ k ih =>
    have hmul : (k + 1) * a.length = a.length + k * a.length := by
      rw [Nat.succ_mul, Nat.add_comm]
    rw [List.replicate_succ, List.flatten_cons, ← ih]
    unfold np_resize
    rw [if_neg hne, if_neg hne, hmul, List.range_add, List.map_append, List.map_map]
    congr 1
    · calc (List.range a.length).map (fun i => a.getD (i % a.length) 0)
          = (List.range a.length).map (fun i => a.getD i 0) := by
            apply List.map_congr_left
            intro i hi
            rw [List.mem_range] at hi
            simp [Nat.mod_eq_of_lt hi]
        _ = a := map_getD_range a
    · apply List.map_congr_left
      intro i _
      simp [Function.comp, Nat.add_mod_left]

/-- NumPy dtype tag, used to track the `astype(np.float64)` conversion in
the loader. -/
inductive DType where
  | float32
  | float64
deriving DecidableEq

/-- A mono waveform: its samples and the dtype of the backing array. -/
structure Wave where
  samples : List ℚ
  dtype : DType
deriving DecidableEq

/-- One call to an external library performed by the script, recorded with
the arguments the spec constrains. -/
inductive Event where
  | load (path : String) (target_sr : Nat)
  | analyze (sr : Nat) (frame_period : ℚ)
  | synthesize (sr : Nat) (frame_period : ℚ)
  | write (path : String) (data : List ℚ)
  | plot (path : String) (frame_period : ℚ)
deriving DecidableEq

/-- Abstract environment of external capabilities: `librosa.load`, the
WORLD analyzer chain used by `analyze_speech` (dio, stonemask, cheaptrick,
d4c), and the WORLD synthesizer. Loading may fail; its result is the
decoded waveform and the sample rate librosa reports. -/
structure WorldEnv where
  librosa_load : String → Nat → Except String (Wave × Nat)
  analyze : Wave → Nat → ℚ → List ℚ × List (List ℚ) × List (List ℚ)
  synthesize : List ℚ → List (List ℚ) → List (List ℚ) → Nat → ℚ → List ℚ

/-- `load_and_preprocess_audio(file_path, target_sr=22050)` from the source:
calls `librosa.load(file_path, sr=target_sr, mono=True)`, converts the
samples to float64 with `astype`, and returns the waveform together with
the sample rate librosa reported. Decode failures propagate unchanged. -/
def load_and_preprocess_audio (ll : String → Nat → Except String (Wave × Nat))
    (file_path : String) (target_sr : Nat) : Except String (Wave × Nat) :=
  match ll file_path target_sr with
  | Except.error e => Except.error e
  | Except.ok (y, sr) =>
      Except.ok ({ samples := y.samples, dtype := DType.float64 }, sr)

/-- Documented contract of `librosa.load` when an explicit `sr` is passed:
on success the audio is resampled to the requested rate and that rate is
reported back. -/
def LibrosaConformant (ll : String → Nat → Except String (Wave × Nat)) : Prop :=
  ∀ path target_sr y sr, ll path target_sr = Except.ok (y, sr) → sr = target_sr

/-- `main(emotional_file, neutral_file, output_file, plot_file)` from the
source, modelled as the trace of external calls performed together with the
run's result; `Except.error` models an uncaught exception. The `plot_file`
argument is tested for Python truthiness, i.e. non-emptiness. -/
def main' (env : WorldEnv) (emotional_file neutral_file output_file plot_file : String) :
    List Event × Except String Unit :=
  match load_and_preprocess_audio env.librosa_load emotional_file 22050 with
  | Except.error e => ([Event.load emotional_file 22050], Except.error e)
  | Except.ok (y_emo, sr_emo) =>
    match load_and_preprocess_audio env.librosa_load neutral_file 22050 with
    | Except.error e =>
        ([Event.load emotional_file 22050, Event.load neutral_file 22050], Except.error e)
    | Except.ok (y_neu, sr_neu) =>
      if sr_emo ≠ sr_neu then
        ([Event.load emotional_file 22050, Event.load neutral_file 22050],
         Except.error "Sampling rates of the two files must be the same.")
      else
        let sr := sr_emo
        let frame_period : ℚ := 5
        let a_emo := env.analyze y_emo sr frame_period
        let a_neu := env.analyze y_neu sr frame_period
        let conv := transfer_prosody a_emo.1 a_neu.2.1 a_neu.2.2
        let y_conv := env.synthesize conv.1 conv.2.1 conv.2.2 sr frame_period
        ([Event.load emotional_file 22050, Event.load neutral_file 22050,
          Event.analyze sr frame_period, Event.analyze sr frame_period,
          Event.synthesize sr frame_period, Event.write output_file y_conv] ++
          (if plot_file = "" then [] else [Event.plot plot_file frame_period]),
         Except.ok ())

/-- Processing events: analysis, synthesis, or output writing. -/
def isProcessing : Event → Bool
  | Event.analyze _ _ => true
  | Event.synthesize _ _ => true
  | Event.write _ _ => true
  | _ => false

/-- Fixed configuration of the script: every load requests 22050 Hz and
every analysis, synthesis, or plotting call uses a 5 ms frame period. -/
def usesFixedConfig : Event → Bool
  | Event.load _ target_sr => target_sr == 22050
  | Event.analyze _ fp => fp == 5
  | Event.synthesize _ fp => fp == 5
  | Event.write _ _ => true
  | Event.plot _ fp => fp == 5

/-- The audio a run actually writes: path and samples of each write event. -/
def writeData (tr : List Event) : List (String × List ℚ) :=
  tr.filterMap (fun ev => match ev with
    | Event.write p d => some (p, d)
    | _ => none)

/-- C1: for every source pitch contour of length `L > 0` and every target
envelope with `N` frames, the aligned contour returned by `transfer_prosody`
has `i`-th element equal to element `i % L` of the source, for all `i < N`:
cyclic repetition when the source is shorter than `N`, truncation when it is
longer. -/
theorem transfer_prosody_cyclic (f0_source : List ℚ) (sp_target ap_target : List (List ℚ))
    (i : Nat) (hL : 0 < f0_source.length) (hi : i < sp_target.length) :
    ((transfer_prosody f0_source sp_target ap_target).1).getD i 0 =
      f0_source.getD (i % f0_source.length) 0 :=
  np_resize_getD _ _ _ hL hi

/-- Witness for C1: source of length 2, target with 3 frames, index 2. -/
theorem transfer_prosody_cyclic_witness :
    ((transfer_prosody [3, 4] [[1], [1], [1]] []).1).getD 2 0 =
      ([3, 4] : List ℚ).getD (2 % ([3, 4] : List ℚ).length) 0 :=
  transfer_prosody_cyclic [3, 4] [[1], [1], [1]] [] 2 (by decide) (by decide)

/-- C2: the aligned contour produced by `transfer_prosody` has length exactly
the target frame count, for every source length (covering both `L < N` and
`L > N`). -/
theorem transfer_prosody_length (f0_source : List ℚ) (sp_target ap_target : List (List ℚ)) :
    (transfer_prosody f0_source sp_target ap_target).1.length = sp_target.length :=
  np_resize_length _ _

/-- C3: when the source length `L > 0` divides the target frame count `N`,
the aligned contour is the source contour repeated `N / L` times verbatim,
and the resizing is deterministic. -/
theorem transfer_prosody_divides (f0_source : List ℚ) (sp_target ap_target : List (List ℚ))
    (hL : 0 < f0_source.length) (hdvd : f0_source.length ∣ sp_target.length) :
    (transfer_prosody f0_source sp_target ap_target).1 =
      (List.replicate (sp_target.length / f0_source.length) f0_source).flatten ∧
    transfer_prosody f0_source sp_target ap_target =
      transfer_prosody f0_source sp_target ap_target := by
  refine ⟨?_, rfl⟩
  obtain ⟨k, hk⟩ := hdvd
  have hdiv : sp_target.length / f0_source.length = k := by
    rw [hk]
    exact Nat.mul_div_cancel_left _ hL
  show np_resize f0_source sp_target.length = _
  rw [hdiv, hk, Nat.mul_comm]
  exact np_resize_mul f0_source hL k

/-- Witness for C3: source of length 2, target with 4 frames. -/
theorem transfer_prosody_divides_witness :
    (transfer_prosody [1, 2] [[0], [0], [0], [0]] []).1 =
      (List.replicate (([[0], [0], [0], [0]] : List (List ℚ)).length /
        ([1, 2] : List ℚ).length) [1, 2]).flatten ∧
    transfer_prosody [1, 2] [[0], [0], [0], [0]] [] =
      transfer_prosody [1, 2] [[0], [0], [0], [0]] [] :=
  transfer_prosody_divides [1, 2] [[0], [0], [0], [0]] [] (by decide) (by decide)

/-- C4: `transfer_prosody` returns the target envelope and aperiodicity
unchanged, and every value in the aligned contour is either a value of the
source contour or the zero fill of an empty source — no scaling or
pitch-range normalization is applied. -/
theorem transfer_prosody_frame (f0_source : List ℚ) (sp_target ap_target : List (List ℚ)) :
    (transfer_prosody f0_source sp_target ap_target).2.1 = sp_target ∧
    (transfer_prosody f0_source sp_target ap_target).2.2 = ap_target ∧
    ∀ x ∈ (transfer_prosody f0_source sp_target ap_target).1, x ∈ f0_source ∨ x = 0 := by
  refine ⟨rfl, rfl, ?_⟩
  intro x hx
  show x ∈ f0_source ∨ x = 0
  have hx' : x ∈ np_resize f0_source sp_target.length := hx
  unfold np_resize at hx'
  by_cases h : f0_source.length = 0
  · rw [if_pos h] at hx'
    exact Or.inr (List.eq_of_mem_replicate hx')
  · rw [if_neg h] at hx'
    left
    rw [List.mem_map] at hx'
    obtain ⟨i, _, rfl⟩ := hx'
    have hlt : i % f0_source.length < f0_source.length :=
      Nat.mod_lt _ (Nat.pos_of_ne_zero h)
    rw [List.getD_eq_getElem?_getD, List.getElem?_eq_getElem hlt]
    simp

/-- Witness for C4: the membership conjunct at a concrete aligned value. -/
theorem transfer_prosody_frame_witness :
    (3 : ℚ) ∈ ([3] : List ℚ) ∨ (3 : ℚ) = 0 :=
  (transfer_prosody_frame [3] [[1]] []).2.2 3 (by decide)

/-- C9: with an empty source contour, `transfer_prosody` does not fail: it
returns an aligned contour of the target frame count whose entries are all
zero (every frame unvoiced), matching `np.resize`'s zero fill from an empty
array. -/
theorem transfer_prosody_empty_source (sp_target ap_target : List (List ℚ)) :
    (transfer_prosody [] sp_target ap_target).1 = List.replicate sp_target.length 0 :=
  rfl

/-- Model of `np.ma.masked_where(a == 0, a)` elementwise (with its default
`copy=True` the input array is not written): masked entries become `none`. -/
def masked_where_zero (a : List ℚ) : List (Option ℚ) :=
  a.map (fun x => if x = 0 then none else some x)

/-- One plotted series: its time axis and masked values. -/
structure Series where
  time_axis : List ℚ
  values : List (Option ℚ)
deriving DecidableEq

/-- The figure assembled and saved by `plot_f0_contours`. -/
structure Figure where
  neu : Series
  emo : Series
  conv : Series
  save_path : String
deriving DecidableEq

/-- Time axis `np.arange(len(f0)) * frame_period / 1000.0`. -/
def f0_time_axis (f0 : List ℚ) (frame_period : ℚ) : List ℚ :=
  (List.range f0.length).map (fun i => (i : ℚ) * frame_period / 1000)

/-- `plot_f0_contours(f0_emo, f0_neu, f0_conv, sr, frame_period, save_path)`
from the source: builds the three masked series on their own time axes and
saves the figure. The second component is the post-call value of the three
contour arrays: no statement of the body assigns into them, and
`masked_where` copies. The `sr` argument is unused by the body, as in the
source. -/
def plot_f0_contours (f0_emo f0_neu f0_conv : List ℚ) (sr : Nat) (frame_period : ℚ)
    (save_path : String) : Figure × (List ℚ × List ℚ × List ℚ) :=
  ({ neu := { time_axis := f0_time_axis f0_neu frame_period,
              values := masked_where_zero f0_neu }
     emo := { time_axis := f0_time_axis f0_emo frame_period,
              values := masked_where_zero f0_emo }
     conv := { time_axis := f0_time_axis f0_conv frame_period,
               values := masked_where_zero f0_conv }
     save_path := save_path },
   (f0_emo, f0_neu, f0_conv))

theorem load_ok_inv (ll : String → Nat → Except String (Wave × Nat))
    (path : String) (target_sr : Nat) (y : Wave) (sr : Nat)
    (h : load_and_preprocess_audio ll path target_sr = Except.ok (y, sr)) :
    ∃ y0 : Wave, ll path target_sr = Except.ok (y0, sr) ∧
      y = { samples := y0.samples, dtype := DType.float64 } := by
  unfold load_and_preprocess_audio at h
  cases hll : ll path target_sr with
  | error e => rw [hll] at h; cases h
  | ok v =>
    obtain ⟨y0, sr0⟩ := v
    rw [hll] at h
    simp only [Except.ok.injEq, Prod.mk.injEq] at h
    obtain ⟨hy, hsr⟩ := h
    subst hsr
    exact ⟨y0, rfl, hy.symm⟩

/-- C5: if the two loads report differing sample rates, `main` fails with
the descriptive sample-rate error and its trace contains no analysis,
synthesis, or write call; and when the rates agree no other validation is
performed — the run succeeds. -/
theorem main_sample_rate_check (env : WorldEnv)
    (emotional_file neutral_file output_file plot_file : String)
    (y1 y2 : Wave) (s1 s2 : Nat)
    (h1 : load_and_preprocess_audio env.librosa_load emotional_file 22050 =
      Except.ok (y1, s1))
    (h2 : load_and_preprocess_audio env.librosa_load neutral_file 22050 =
      Except.ok (y2, s2)) :
    (s1 ≠ s2 →
      (main' env emotional_file neutral_file output_file plot_file).2 =
        Except.error "Sampling rates of the two files must be the same." ∧
      (main' env emotional_file neutral_file output_file plot_file).1.all
        (fun ev => !(isProcessing ev)) = true) ∧
    (s1 = s2 →
      (main' env emotional_file neutral_file output_file plot_file).2 =
        Except.ok ()) := by
  refine ⟨fun hne => ?_, fun heq => ?_⟩
  · simp [main', h1, h2, hne, isProcessing]
  · simp [main', h1, h2, heq]

/-- Sample environment whose loader reports different rates for the two
files (a hypothetical non-resampling decoder). -/
def envMismatch : WorldEnv :=
  { librosa_load := fun path _ =>
      if path = "emotion.wav" then
        Except.ok ({ samples := [0], dtype := DType.float32 }, 22050)
      else
        Except.ok ({ samples := [0], dtype := DType.float32 }, 44100)
    analyze := fun _ _ _ => ([], [], [])
    synthesize := fun _ _ _ _ _ => [] }

/-- Witness for C5 at `envMismatch`. -/
theorem main_sample_rate_check_witness :
    (main' envMismatch "emotion.wav" "neutral.wav" "converted.wav" "f0.png").2 =
      Except.error "Sampling rates of the two files must be the same." :=
  ((main_sample_rate_check envMismatch "emotion.wav" "neutral.wav" "converted.wav"
      "f0.png" { samples := [0], dtype := DType.float64 }
      { samples := [0], dtype := DType.float64 } 22050 44100
      (by rfl) (by rfl)).1 (by decide)).1

/-- C6: under librosa's documented contract, a successful load returns the
target sample rate and a float64 waveform, and a decode failure propagates
as the IOError-kind condition. -/
theorem load_and_preprocess_audio_spec
    (ll : String → Nat → Except String (Wave × Nat)) (path : String) (target_sr : Nat)
    (hconf : LibrosaConformant ll) :
    (∀ y sr, load_and_preprocess_audio ll path target_sr = Except.ok (y, sr) →
      sr = target_sr ∧ y.dtype = DType.float64) ∧
    (∀ e, ll path target_sr = Except.error e →
      load_and_preprocess_audio ll path target_sr = Except.error e) := by
  constructor
  · intro y sr h
    obtain ⟨y0, hll, hy⟩ := load_ok_inv ll path target_sr y sr h
    exact ⟨hconf path target_sr y0 sr hll, by rw [hy]⟩
  · intro e he
    unfold load_and_preprocess_audio
    rw [he]

/-- Sample conformant loader: resamples every readable path to the requested
rate; fails on the empty path with an I/O error. -/
def demoLoad : String → Nat → Except String (Wave × Nat) :=
  fun path target_sr =>
    if path = "" then Except.error "could not read file"
    else Except.ok ({ samples := [0], dtype := DType.float32 }, target_sr)

theorem demoLoad_conformant : LibrosaConformant demoLoad := by
  intro path target_sr y sr h
  unfold demoLoad at h
  by_cases hp : path = ""
  · rw [if_pos hp] at h; cases h
  · rw [if_neg hp] at h
    simp only [Except.ok.injEq, Prod.mk.injEq] at h
    exact h.2.symm

/-- Witness for C6 at `demoLoad`. -/
theorem load_and_preprocess_audio_spec_witness :
    (22050 : Nat) = 22050 ∧
      ({ samples := [0], dtype := DType.float64 } : Wave).dtype = DType.float64 :=
  (load_and_preprocess_audio_spec demoLoad "emotion.wav" 22050 demoLoad_conformant).1
    { samples := [0], dtype := DType.float64 } 22050 (by rfl)

/-- C7: plotting never mutates the three pitch contours (each is unchanged
after the call), and has no effect on the audio output: the write events of
`main` are identical whatever the plot path. -/
theorem plot_f0_contours_pure (f0_emo f0_neu f0_conv : List ℚ) (sr : Nat)
    (frame_period : ℚ) (save_path : String)
    (env : WorldEnv) (e n o p q : String) :
    (plot_f0_contours f0_emo f0_neu f0_conv sr frame_period save_path).2 =
      (f0_emo, f0_neu, f0_conv) ∧
    writeData (main' env e n o p).1 = writeData (main' env e n o q).1 := by
  refine ⟨rfl, ?_⟩
  unfold main'
  cases load_and_preprocess_audio env.librosa_load e 22050 with
  | error _ => rfl
  | ok v =>
    obtain ⟨y1, s1⟩ := v
    cases load_and_preprocess_audio env.librosa_load n 22050 with
    | error _ => rfl
    | ok v2 =>
      obtain ⟨y2, s2⟩ := v2
      by_cases hs : s1 ≠ s2
      · simp [hs]
      · simp only [hs, if_false, ite_not]
        simp [writeData, List.filterMap_append]
        by_cases hp : p = "" <;> by_cases hq : q = "" <;> simp [hp, hq]

/-- C8: every external call of an orchestrator run uses the fixed
configuration: loads request 22050 Hz; analysis, synthesis, and plotting use
a 5 ms frame period. -/
theorem main_fixed_config (env : WorldEnv) (e n o p : String) :
    (main' env e n o p).1.all usesFixedConfig = true := by
  unfold main'
  cases load_and_preprocess_audio env.librosa_load e 22050 with
  | error _ => simp [usesFixedConfig]
  | ok v =>
    obtain ⟨y1, s1⟩ := v
    cases load_and_preprocess_audio env.librosa_load n 22050 with
    | error _ => simp [usesFixedConfig]
    | ok v2 =>
      obtain ⟨y2, s2⟩ := v2
      by_cases hs : s1 ≠ s2
      · simp [hs, usesFixedConfig]
      · simp only [hs, if_false, ite_not]
        by_cases hp : p = "" <;> simp [hp, usesFixedConfig]

/-- C10: with a loader satisfying librosa's contract, whenever both loads
succeed the two reported sample rates are equal (both are the fixed 22050 Hz
target), so the sample-rate mismatch branch of `main` is unreachable and the
run completes successfully. -/
theorem main_mismatch_unreachable (env : WorldEnv)
    (emotional_file neutral_file output_file plot_file : String)
    (y1 y2 : Wave) (s1 s2 : Nat)
    (hconf : LibrosaConformant env.librosa_load)
    (h1 : load_and_preprocess_audio env.librosa_load emotional_file 22050 =
      Except.ok (y1, s1))
    (h2 : load_and_preprocess_audio env.librosa_load neutral_file 22050 =
      Except.ok (y2, s2)) :
    s1 = s2 ∧
    (main' env emotional_file neutral_file output_file plot_file).2 = Except.ok () := by
  obtain ⟨ya, hlla, _⟩ := load_ok_inv _ _ _ _ _ h1
  obtain ⟨yb, hllb, _⟩ := load_ok_inv _ _ _ _ _ h2
  have hs1 : s1 = 22050 := hconf _ _ _ _ hlla
  have hs2 : s2 = 22050 := hconf _ _ _ _ hllb
  subst hs1
  subst hs2
  exact ⟨rfl, by simp [main', h1, h2]⟩

/-- Sample environment with a conformant loader. -/
def envConformant : WorldEnv :=
  { librosa_load := demoLoad
    analyze := fun _ _ _ => ([], [], [])
    synthesize := fun _ _ _ _ _ => [] }

/-- Witness for C10 at `envConformant`. -/
theorem main_mismatch_unreachable_witness :
    (22050 : Nat) = 22050 ∧
      (main' envConformant "emotion.wav" "neutral.wav" "converted.wav" "f0.png").2 =
        Except.ok () :=
  main_mismatch_unreachable envConformant "emotion.wav" "neutral.wav" "converted.wav"
    "f0.png" { samples := [0], dtype := DType.float64 }
    { samples := [0], dtype := DType.float64 } 22050 22050
    demoLoad_conformant (by rfl) (by rfl)
